import Mathlib

/- Verification of the ThunderBorg I2C motor-controller driver
   (tborg/tborg.py): a shallow embedding of the command protocol codec,
   the write-then-read retry loop, board discovery, address relocation
   and session initialization, with theorems settling the specification
   claims against the embedded code. -/

namespace TBorg

/-! Constants from the `ThunderBorg` class (tborg/tborg.py lines 44-134). -/

def PWM_MAX : ℕ := 255

def I2C_READ_LEN : ℕ := 6

def I2C_ID_THUNDERBORG : ℕ := 0x15

def DEFAULT_BUS_NUM : ℕ := 1

def POSSIBLE_BUSS : List ℕ := [0, 1]

def COMMAND_GET_LED_BATT_MON : ℕ := 7

def COMMAND_SET_A_FWD : ℕ := 8

def COMMAND_SET_A_REV : ℕ := 9

def COMMAND_GET_A : ℕ := 10

def COMMAND_SET_B_FWD : ℕ := 11

def COMMAND_SET_B_REV : ℕ := 12

def COMMAND_GET_B : ℕ := 13

def COMMAND_GET_DRIVE_A_FAULT : ℕ := 15

def COMMAND_GET_DRIVE_B_FAULT : ℕ := 16

def COMMAND_SET_FAILSAFE : ℕ := 19

def COMMAND_GET_FAILSAFE : ℕ := 20

def COMMAND_WRITE_EXTERNAL_LED : ℕ := 24

def COMMAND_GET_ID : ℕ := 0x99

def COMMAND_SET_I2C_ADD : ℕ := 0xAA

def COMMAND_VALUE_FWD : ℕ := 1

def COMMAND_VALUE_REV : ℕ := 2

def COMMAND_VALUE_OFF : ℕ := 0

/-- Exceptions that can escape the embedded fragments of the driver.
`thunderBorgError` models `ThunderBorgException`; `indexError` models the
`IndexError` Python raises when `data[0]` is taken on an empty response;
`nameError` models the unbound-variable error when the retry loop body
never ran (retry_count = 0, impossible in the driver). -/
inductive PyError where
  | indexError : PyError
  | thunderBorgError : PyError
  | nameError : PyError
  deriving DecidableEq

/-- Embedding of `ThunderBorg._read` (tborg/tborg.py lines 484-522).
The argument list holds the byte strings successive `self._i2c_read.read`
calls return, one per attempt; each loop iteration re-sends the command as
a write frame (`self._write(command, [])`) and re-reads.  The result pairs
the number of attempts performed with the outcome.  The loop breaks on the
first response whose byte 0 equals the command; after the last iteration
the code checks `len(data) <= 0` (raising `ThunderBorgException`) and
otherwise returns `data` — the data of the final attempt, matched or not. -/
def readLoop (command : ℕ) : List (List ℕ) → ℕ × Except PyError (List ℕ)
  | [] => (0, Except.error PyError.nameError)
  | data :: rest =>
    match data with
    | [] => (1, Except.error PyError.indexError)
    | b :: _ =>
      if b = command then (1, Except.ok data)
      else
        match rest with
        | [] => (1, Except.ok data)
        | _ :: _ =>
          let r := readLoop command rest
          (r.1 + 1, r.2)

/-- Embedding of `ThunderBorg._read` at its default `retry_count=3`:
`r1`, `r2`, `r3` are the responses the bus would deliver on the three
possible read attempts. -/
def tbRead (command : ℕ) (r1 r2 r3 : List ℕ) : ℕ × Except PyError (List ℕ) :=
  readLoop command [r1, r2, r3]

/-- Embedding of `ThunderBorg._check_board_chip` (tborg/tborg.py lines
264-284): the received frame must have the expected length 6 and carry the
board identifier 0x15 in byte 1. -/
def check_board_chip (recv : List ℕ) : Bool :=
  if recv.length = I2C_READ_LEN then
    if recv.getD 1 0 = I2C_ID_THUNDERBORG then true else false
  else false

/-- Abstraction of the I2C world a probe runs against: `initOk bus addr`
tells whether `_init_bus` succeeds (device node present and ioctl bind
works), and `readId bus addr` is the outcome of `_read(COMMAND_GET_ID, 6)`
at that endpoint (`none` models an `IOError`). -/
structure BusEnv where
  initOk : ℕ → ℕ → Bool
  readId : ℕ → ℕ → Option (List ℕ)

/-- Embedding of `ThunderBorg._is_thunder_borg_board` (tborg/tborg.py
lines 210-231): initialize the bus, issue the GET_ID read (an `IOError`
yields `False`), and check the identifier byte. -/
def is_thunder_borg_board (env : BusEnv) (bus addr : ℕ) : Bool :=
  env.initOk bus addr &&
    match env.readId bus addr with
    | none => false
    | some recv => check_board_chip recv

/-- Embedding of `ThunderBorg.find_board` (tborg/tborg.py lines 299-337):
`for address in range(0x03, 0x77, 1)` — the scan runs over the addresses
0x03, 0x04, ..., 0x76 (Python `range` upper bound exclusive) and collects
those where the probe succeeds. -/
def find_board (env : BusEnv) (bus : ℕ) : List ℕ :=
  List.filter (fun addr => is_thunder_borg_board env bus addr)
    (List.range' 0x03 (0x77 - 0x03))

/-- Observable bus actions: opening (attempting to open and bind) a
channel at a bus/address pair, and sending a write frame.  A `_read` call
contributes the GET_ID write frame of its first attempt; retry re-sends
add no new kind of event and are elided since only the presence of events
matters to the theorems below. -/
inductive Event where
  | openChannel : ℕ → ℕ → Event
  | writeFrame : ℕ → List ℕ → Event
  deriving DecidableEq

/-- Bus actions performed by one `_is_thunder_borg_board` probe: the
`_init_bus` open attempt, then (when the bind succeeded) the GET_ID write
issued from `_read`. -/
def probe_trace (env : BusEnv) (bus addr : ℕ) : List Event :=
  Event.openChannel bus addr ::
    (if env.initOk bus addr then [Event.writeFrame COMMAND_GET_ID []] else [])

/-- Bus actions performed by a full `find_board` scan. -/
def find_board_trace (env : BusEnv) (bus : ℕ) : List Event :=
  List.flatMap (List.range' 0x03 (0x77 - 0x03)) (fun a => probe_trace env bus a)

/-- Embedding of the body of `ThunderBorg.set_i2c_address` after the
current address is known (tborg/tborg.py lines 386-432): initialize the
bus at `cur`, issue GET_ID (an `IOError` raises), and when the chip check
passes send `COMMAND_SET_I2C_ADD [new_addr]`, re-initialize at `new_addr`
and re-probe; a failed post-move probe raises.  A failed outer `_init_bus`
or a failed outer chip check falls through without raising. -/
def set_addr_core (env : BusEnv) (new_addr cur bus : ℕ) :
    List Event × Except PyError Unit :=
  if env.initOk bus cur then
    let tr0 := [Event.openChannel bus cur, Event.writeFrame COMMAND_GET_ID []]
    match env.readId bus cur with
    | none => (tr0, Except.error PyError.thunderBorgError)
    | some recv =>
      if check_board_chip recv then
        let tr1 := tr0 ++ [Event.writeFrame COMMAND_SET_I2C_ADD [new_addr]]
        if env.initOk bus new_addr then
          let tr2 := tr1 ++
            [Event.openChannel bus new_addr, Event.writeFrame COMMAND_GET_ID []]
          match env.readId bus new_addr with
          | none => (tr2, Except.error PyError.thunderBorgError)
          | some recv2 =>
            if check_board_chip recv2 then (tr2, Except.ok ())
            else (tr2, Except.error PyError.thunderBorgError)
        else (tr1 ++ [Event.openChannel bus new_addr], Except.ok ())
      else (tr0, Except.ok ())
  else ([Event.openChannel bus cur], Except.ok ())

/-- Embedding of `ThunderBorg.set_i2c_address` (tborg/tborg.py lines
339-432).  The instance is built with `static_init=True`, so nothing
touches the bus before the range check `0x03 <= new_addr <= 0x77`; a
negative `cur_addr` triggers a `find_board` scan whose first hit becomes
the current address. -/
def set_i2c_address (env : BusEnv) (new_addr : ℕ) (cur_addr : ℤ) (bus : ℕ) :
    List Event × Except PyError Unit :=
  if ¬(0x03 ≤ new_addr ∧ new_addr ≤ 0x77) then
    ([], Except.error PyError.thunderBorgError)
  else if cur_addr < 0 then
    match find_board env bus with
    | [] => (find_board_trace env bus, Except.error PyError.thunderBorgError)
    | c :: _ =>
      let r := set_addr_core env new_addr c bus
      (find_board_trace env bus ++ r.1, r.2)
  else
    set_addr_core env new_addr cur_addr.toNat bus

/-- Embedding of `ThunderBorg._auto_set_address` (tborg/tborg.py lines
286-297): scan with `find_board` — note the call `cls.find_board(tb=tb,
close=False)` leaves `bus_num` at its default `DEFAULT_BUS_NUM` — and
re-probe the first hit on the originally requested bus. -/
def auto_set_address (env : BusEnv) (bus_num : ℕ) : Bool :=
  match find_board env DEFAULT_BUS_NUM with
  | [] => false
  | b :: _ => is_thunder_borg_board env bus_num b

/-- Probes (bus, address) performed by `_auto_set_address`: the
`find_board` scan of the default bus followed, when a board was found, by
the final probe of that address on the requested bus. -/
def auto_probes (env : BusEnv) (bus_num : ℕ) : List (ℕ × ℕ) :=
  List.map (fun a => (DEFAULT_BUS_NUM, a)) (List.range' 0x03 (0x77 - 0x03)) ++
    match find_board env DEFAULT_BUS_NUM with
    | [] => []
    | b :: _ => [(bus_num, b)]

/-- Embedding of `ThunderBorg._initialize_board` (tborg/tborg.py lines
177-204), paired with the list of (bus, address) probes it performs.  When
the first probe fails the fallback bus list is
`[bus for bus in _POSSIBLE_BUSS if not auto_set_addr and bus != bus_num]`
— nonempty exactly when `auto_set_addr` is False — and `found_chip` is
overwritten by each fallback probe (`foldl`).  The constructor raises when
no probe succeeded and, with `auto_set_addr` True, `_auto_set_address`
also failed. -/
def initialize_board (env : BusEnv) (bus_num addr : ℕ) (auto : Bool) :
    List (ℕ × ℕ) × Except PyError Unit :=
  if is_thunder_borg_board env bus_num addr then
    ([(bus_num, addr)], Except.ok ())
  else
    let buss := List.filter (fun b => !auto && b != bus_num) POSSIBLE_BUSS
    let found_chip :=
      List.foldl (fun _ b => is_thunder_borg_board env b addr) false buss
    let probes := (bus_num, addr) :: List.map (fun b => (b, addr)) buss
    if found_chip then (probes, Except.ok ())
    else if !auto then (probes, Except.error PyError.thunderBorgError)
    else if auto_set_address env bus_num then
      (probes ++ auto_probes env bus_num, Except.ok ())
    else (probes ++ auto_probes env bus_num, Except.error PyError.thunderBorgError)

/-- Python's `int()` applied to a numeric value: truncation toward zero. -/
def pyInt (q : ℚ) : ℤ :=
  if q < 0 then ⌈q⌉ else ⌊q⌋

/-- Embedding of the encode step of `ThunderBorg._set_motor`
(tborg/tborg.py lines 524-534): a negative level selects the reverse
command and `pwm = -int(PWM_MAX * level)`, otherwise the forward command
and `pwm = int(PWM_MAX * level)`; in both branches pwm is clamped above at
`PWM_MAX`.  The result is the command code and the payload byte value. -/
def set_motor_frame (level : ℚ) (fwd rev : ℕ) : ℕ × ℤ :=
  if level < 0 then
    let pwm := -(pyInt ((PWM_MAX : ℚ) * level))
    (rev, if pwm > (PWM_MAX : ℤ) then (PWM_MAX : ℤ) else pwm)
  else
    let pwm := pyInt ((PWM_MAX : ℚ) * level)
    (fwd, if pwm > (PWM_MAX : ℤ) then (PWM_MAX : ℤ) else pwm)

/-- Encoder written from the specification's words, for comparison with
the code: "sign of `level` selects forward vs reverse command constant;
magnitude = clamp(round(abs(level)*255), 0, 255)". -/
def encode_motor_spec (level : ℚ) (fwd rev : ℕ) : ℕ × ℤ :=
  (if level < 0 then rev else fwd, max 0 (min 255 (round (|level| * 255))))

/-- Embedding of the decode step of `ThunderBorg._get_motor`
(tborg/tborg.py lines 618-629): `level = recv[2] / PWM_MAX`, negated when
the direction byte `recv[1]` is the reverse constant, kept when it is the
forward constant, and a `ThunderBorgException` otherwise. -/
def get_motor_decode (recv : List ℕ) : Except PyError ℚ :=
  let level : ℚ := (recv.getD 2 0 : ℚ) / (PWM_MAX : ℚ)
  let direction := recv.getD 1 0
  if direction = COMMAND_VALUE_REV then Except.ok (-level)
  else if direction = COMMAND_VALUE_FWD then Except.ok level
  else Except.error PyError.thunderBorgError

/-- Embedding of `ThunderBorg._get_motor` (tborg/tborg.py lines 600-629):
the `_read` retry loop followed by the direction/level decode. -/
def get_motor (command : ℕ) (r1 r2 r3 : List ℕ) : Except PyError ℚ :=
  match (tbRead command r1 r2 r3).2 with
  | Except.error e => Except.error e
  | Except.ok recv => get_motor_decode recv

/-- Round trip of the motor level through the board: `_set_motor` encodes
`level` into a command code and a pwm byte, the firmware stores the
direction value (reverse for the reverse command, forward otherwise) and
the pwm byte, and `_get_motor` decodes the GET_A response built from that
stored state. -/
def motor_roundtrip (level : ℚ) : Except PyError ℚ :=
  let f := set_motor_frame level COMMAND_SET_A_FWD COMMAND_SET_A_REV
  let dv := if f.1 = COMMAND_SET_A_REV then COMMAND_VALUE_REV
            else COMMAND_VALUE_FWD
  get_motor_decode [COMMAND_GET_A, dv, f.2.toNat, 0, 0, 0]

/-- Clamp used by `ThunderBorg.write_external_led_word` (tborg/tborg.py
lines 1115-1118): `max(0, min(PWM_MAX, int(b)))`. -/
def clamp255 (q : ℚ) : ℤ :=
  max 0 (min (PWM_MAX : ℤ) (pyInt q))

/-- Embedding of `ThunderBorg.write_external_led_word` (tborg/tborg.py
lines 1093-1129) as the write frame it sends: the command byte followed by
the four clamped payload bytes. -/
def write_external_led_word (b0 b1 b2 b3 : ℚ) : List ℤ :=
  [(COMMAND_WRITE_EXTERNAL_LED : ℤ),
   clamp255 b0, clamp255 b1, clamp255 b2, clamp255 b3]

/-- Embedding of `ThunderBorg.set_external_led_colors` (tborg/tborg.py
lines 1131-1156) as the sequence of frames it writes: the all-zero start
word, then `write_external_led_word(255, 255*b, 255*g, 255*r)` for each
`(r, g, b)` in order. -/
def set_external_led_colors (colors : List (ℚ × ℚ × ℚ)) : List (List ℤ) :=
  write_external_led_word 0 0 0 0 ::
    List.map
      (fun c => write_external_led_word 255 (255 * c.2.2) (255 * c.2.1) (255 * c.1))
      colors

/-- LED word written from the specification's words, for comparison with
the code: "each word built as `(255, round(255*b), round(255*g),
round(255*r))`", preceded here by the same command byte the frame
carries. -/
def led_word_spec (r g b : ℚ) : List ℤ :=
  [(COMMAND_WRITE_EXTERNAL_LED : ℤ),
   255, round (255 * b), round (255 * g), round (255 * r)]

/-- Embedding of the decode step of `ThunderBorg.get_comms_failsafe`
(tborg/tborg.py line 903): `False if recv[1] == COMMAND_VALUE_OFF else
True`. -/
def get_comms_failsafe_decode (recv : List ℕ) : Bool :=
  if recv.getD 1 0 = COMMAND_VALUE_OFF then false else true

/-- Embedding of the decode step of `ThunderBorg.get_led_battery_state`
(tborg/tborg.py line 856): `False if recv[1] == COMMAND_VALUE_OFF else
True`. -/
def get_led_battery_state_decode (recv : List ℕ) : Bool :=
  if recv.getD 1 0 = COMMAND_VALUE_OFF then false else true

/-- Embedding of the decode step of `ThunderBorg._get_drive_fault`
(tborg/tborg.py line 918): `False if recv[1] == COMMAND_VALUE_OFF else
True`. -/
def get_drive_fault_decode (recv : List ℕ) : Bool :=
  if recv.getD 1 0 = COMMAND_VALUE_OFF then false else true

/-! Concrete bus environments used to evaluate the discovery and
relocation procedures on specific worlds. -/

/-- World with a device at every address that answers GET_ID with the
ThunderBorg identifier only at address 0x77. -/
def envTopAddr : BusEnv :=
  ⟨fun _ _ => true,
   fun _ addr =>
     if addr = 0x77 then some [0x99, 0x15, 0, 0, 0, 0]
     else some [0x99, 0, 0, 0, 0, 0]⟩

/-- World with a single ThunderBorg at address 0x15 on every bus and
nothing else driving the bus. -/
def envBoard15 : BusEnv :=
  ⟨fun _ _ => true,
   fun _ addr =>
     if addr = 0x15 then some [0x99, 0x15, 0, 0, 0, 0] else none⟩

/-- World with a ThunderBorg at address 0x15 on bus 0 only; every other
endpoint answers with a non-ThunderBorg identifier. -/
def envBus0Board : BusEnv :=
  ⟨fun _ _ => true,
   fun bus addr =>
     if bus = 0 ∧ addr = 0x15 then some [0x99, 0x15, 0, 0, 0, 0]
     else some [0x99, 0, 0, 0, 0, 0]⟩

/-! Theorems. -/

/-- Claim C1, counterexample to the raising behavior: for the
GET_FAILSAFE command, when all three read attempts echo the wrong command
byte 0x63, `_read` returns the mismatched data of the third attempt as an
ordinary result instead of raising a `ThunderBorgException`. -/
theorem read_retry_exhausted_no_raise :
    tbRead COMMAND_GET_FAILSAFE [0x63, 1, 0, 0, 0, 0] [0x63, 1, 0, 0, 0, 0]
      [0x63, 1, 0, 0, 0, 0] = (3, Except.ok [0x63, 1, 0, 0, 0, 0]) := rfl

/-- Claim C1 (amended): `_read` performs up to 3 attempts, each attempt
re-sending the command and re-reading; an attempt succeeds exactly when
the first response byte equals the command code; when all 3 attempts
return a mismatched echo byte the call returns the third attempt's data
to the caller rather than raising. -/
theorem read_retry_returns_last_mismatch (c b1 b2 b3 : ℕ)
    (t1 t2 t3 : List ℕ) :
    (b1 = c → tbRead c (b1 :: t1) (b2 :: t2) (b3 :: t3) =
      (1, Except.ok (b1 :: t1))) ∧
    (b1 ≠ c → b2 = c → tbRead c (b1 :: t1) (b2 :: t2) (b3 :: t3) =
      (2, Except.ok (b2 :: t2))) ∧
    (b1 ≠ c → b2 ≠ c → b3 = c → tbRead c (b1 :: t1) (b2 :: t2) (b3 :: t3) =
      (3, Except.ok (b3 :: t3))) ∧
    (b1 ≠ c → b2 ≠ c → b3 ≠ c → tbRead c (b1 :: t1) (b2 :: t2) (b3 :: t3) =
      (3, Except.ok (b3 :: t3))) := by
  refine ⟨?_, ?_, ?_, ?_⟩ <;> intros <;> simp_all [tbRead, readLoop]

/-- Witness for C1: a first-attempt echo match succeeds at once, and three
mismatched attempts end with the third attempt's data returned. -/
theorem read_retry_returns_last_mismatch_witness :
    tbRead 10 [10, 1, 128, 0, 0, 0] [7] [7] =
      (1, Except.ok [10, 1, 128, 0, 0, 0]) ∧
    tbRead 10 [7, 0, 0, 0, 0, 0] [7, 0, 0, 0, 0, 0] [7, 0, 0, 0, 0, 0] =
      (3, Except.ok [7, 0, 0, 0, 0, 0]) :=
  ⟨(read_retry_returns_last_mismatch 10 10 7 7 [1, 128, 0, 0, 0] [] []).1 rfl,
   (read_retry_returns_last_mismatch 10 7 7 7
      [0, 0, 0, 0, 0] [0, 0, 0, 0, 0] [0, 0, 0, 0, 0]).2.2.2
     (by decide) (by decide) (by decide)⟩

/-- Claim C2, counterexample to the inclusive upper bound: in a world
whose only matching GET_ID response sits at address 0x77, `find_board`
returns the empty list even though the probe at 0x77 would succeed —
the scan stops at 0x76. -/
theorem find_board_misses_addr_0x77 :
    find_board envTopAddr 1 = [] ∧
      is_thunder_borg_board envTopAddr 1 0x77 = true := ⟨rfl, rfl⟩

/-- Claim C2 (amended): `find_board` probes exactly the addresses 0x03
through 0x76 inclusive (0x77 exclusive) and returns precisely those whose
GET_ID probe succeeds with the ThunderBorg identifier. -/
theorem mem_find_board_iff (env : BusEnv) (bus a : ℕ) :
    a ∈ find_board env bus ↔
      0x03 ≤ a ∧ a < 0x77 ∧ is_thunder_borg_board env bus a = true := by
  simp only [find_board, List.mem_filter, List.mem_range'_1]
  constructor
  · rintro ⟨⟨h1, h2⟩, h3⟩
    exact ⟨h1, by omega, h3⟩
  · rintro ⟨h1, h2, h3⟩
    exact ⟨⟨h1, by omega⟩, h3⟩

/-- Witness for C2: address 0x15 with a matching response is reported by
the scan. -/
theorem mem_find_board_iff_witness : 0x15 ∈ find_board envBoard15 1 :=
  (mem_find_board_iff envBoard15 1 0x15).mpr ⟨by decide, by decide, by decide⟩

/-- Claim C7: `set_i2c_address` with a new address outside 0x03..0x77
raises before any channel is opened and before any write frame is sent:
the event trace is empty and the result is the exception. -/
theorem set_i2c_address_range_check (env : BusEnv) (new_addr : ℕ)
    (cur_addr : ℤ) (bus : ℕ) (h : ¬(0x03 ≤ new_addr ∧ new_addr ≤ 0x77)) :
    set_i2c_address env new_addr cur_addr bus =
      ([], Except.error PyError.thunderBorgError) := by
  unfold set_i2c_address
  rw [if_pos h]

/-- Witness for C7: relocating to 0x78 in a fully-responsive world fails
with the range error and an empty bus trace. -/
theorem set_i2c_address_range_check_witness :
    set_i2c_address envBoard15 0x78 (-1) 1 =
      ([], Except.error PyError.thunderBorgError) :=
  set_i2c_address_range_check envBoard15 0x78 (-1) 1 (by decide)

/-- Claim C8, counterexample: with `auto_set_addr=False` and the board
answering only on bus 0, constructing at bus 1 probes bus 0 anyway and
the construction succeeds — another bus is probed without auto-discovery
and no failure is reported for the requested bus. -/
theorem initialize_board_other_bus_probed :
    initialize_board envBus0Board 1 0x15 false =
      ([(1, 0x15), (0, 0x15)], Except.ok ()) := rfl

/-- Claim C8 (amended): when the board does not answer at the requested
bus and address and `auto_set_addr` is False, the other bus of
`_POSSIBLE_BUSS` is probed at the same address; construction succeeds when
that probe matches and reports failure only when both buses miss.  (With
`auto_set_addr=True` the fallback bus list is empty and discovery scans
addresses on the default bus instead.) -/
theorem initialize_board_no_auto_fallback (env : BusEnv) (addr : ℕ) :
    initialize_board env 1 addr false =
      (if is_thunder_borg_board env 1 addr then ([(1, addr)], Except.ok ())
       else if is_thunder_borg_board env 0 addr then
         ([(1, addr), (0, addr)], Except.ok ())
       else ([(1, addr), (0, addr)], Except.error PyError.thunderBorgError)) := by
  by_cases h1 : is_thunder_borg_board env 1 addr
  · simp [initialize_board, h1]
  · by_cases h0 : is_thunder_borg_board env 0 addr
    · simp [initialize_board, h1, h0, POSSIBLE_BUSS, List.filter, List.foldl]
    · simp [initialize_board, h1, h0, POSSIBLE_BUSS, List.filter, List.foldl]

/-- Claim C9: every boolean-returning get decode yields False exactly for
response byte 1 equal to 0 and True for every nonzero value of that byte,
not only for 1. -/
theorem bool_get_decode_nonzero (c b p2 p3 p4 p5 : ℕ) (h : b ≠ 0) :
    get_comms_failsafe_decode [c, b, p2, p3, p4, p5] = true ∧
    get_led_battery_state_decode [c, b, p2, p3, p4, p5] = true ∧
    get_drive_fault_decode [c, b, p2, p3, p4, p5] = true ∧
    get_comms_failsafe_decode [c, 0, p2, p3, p4, p5] = false ∧
    get_led_battery_state_decode [c, 0, p2, p3, p4, p5] = false ∧
    get_drive_fault_decode [c, 0, p2, p3, p4, p5] = false := by
  simp [get_comms_failsafe_decode, get_led_battery_state_decode,
        get_drive_fault_decode, COMMAND_VALUE_OFF, h]

/-- Witness for C9: byte value 7 (neither 0 nor 1) decodes to True in all
three getters, and byte value 0 decodes to False. -/
theorem bool_get_decode_nonzero_witness :
    get_comms_failsafe_decode [20, 7, 0, 0, 0, 0] = true ∧
    get_led_battery_state_decode [20, 7, 0, 0, 0, 0] = true ∧
    get_drive_fault_decode [20, 7, 0, 0, 0, 0] = true ∧
    get_comms_failsafe_decode [20, 0, 0, 0, 0, 0] = false ∧
    get_led_battery_state_decode [20, 0, 0, 0, 0, 0] = false ∧
    get_drive_fault_decode [20, 0, 0, 0, 0, 0] = false :=
  bool_get_decode_nonzero 20 7 0 0 0 0 (by decide)

/-! Arithmetic helper lemmas about the PWM quantization. -/

lemma pwm_cast_q : (PWM_MAX : ℚ) = 255 := by norm_num [PWM_MAX]

lemma pwm_cast_z : (PWM_MAX : ℤ) = 255 := by norm_num [PWM_MAX]

lemma floor_255_nonneg (q : ℚ) (h0 : 0 ≤ q) : 0 ≤ ⌊(255 : ℚ) * q⌋ :=
  Int.floor_nonneg.mpr (by positivity)

lemma floor_255_le (q : ℚ) (h1 : q ≤ 1) : ⌊(255 : ℚ) * q⌋ ≤ 255 := by
  have h2 : (255 : ℚ) * q ≤ ((255 : ℤ) : ℚ) := by push_cast; nlinarith
  simpa using Int.floor_le_floor h2

lemma floor_div_255_approx (q : ℚ) :
    |(⌊(255 : ℚ) * q⌋ : ℚ) / 255 - q| ≤ 1 / 255 := by
  have hle : (⌊(255 : ℚ) * q⌋ : ℚ) ≤ 255 * q := Int.floor_le _
  have hlt : (255 : ℚ) * q < ⌊(255 : ℚ) * q⌋ + 1 := Int.lt_floor_add_one _
  rw [abs_le]
  constructor <;> linarith

/-- Characterization of the `_set_motor` encode on levels in [-1, 1]: the
command is reverse for negative levels and forward otherwise, and the pwm
byte is the truncation of `255 * |level|`, which already lies in
[0, 255]. -/
lemma set_motor_frame_eq (level : ℚ) (fwd rev : ℕ)
    (h1 : -1 ≤ level) (h2 : level ≤ 1) :
    set_motor_frame level fwd rev =
      ((if level < 0 then rev else fwd), ⌊(255 : ℚ) * |level|⌋) ∧
    0 ≤ ⌊(255 : ℚ) * |level|⌋ ∧ ⌊(255 : ℚ) * |level|⌋ ≤ 255 := by
  have habs1 : |level| ≤ 1 := abs_le.mpr ⟨h1, h2⟩
  have hnn : 0 ≤ ⌊(255 : ℚ) * |level|⌋ := floor_255_nonneg _ (abs_nonneg level)
  have hub : ⌊(255 : ℚ) * |level|⌋ ≤ 255 := floor_255_le _ habs1
  refine ⟨?_, hnn, hub⟩
  by_cases hneg : level < 0
  · have habs : |level| = -level := abs_of_neg hneg
    have hlt : (PWM_MAX : ℚ) * level < 0 := by rw [pwm_cast_q]; nlinarith
    have hceil : -⌈(PWM_MAX : ℚ) * level⌉ = ⌊(255 : ℚ) * |level|⌋ := by
      rw [pwm_cast_q, habs, mul_neg, Int.floor_neg]
    simp only [set_motor_frame, pyInt, if_pos hneg, if_pos hlt, hceil,
      pwm_cast_z]
    rw [if_neg (by omega : ¬⌊(255 : ℚ) * |level|⌋ > 255)]
  · have hge : ¬(level < 0) := hneg
    have habs : |level| = level := abs_of_nonneg (not_lt.mp hge)
    have hprod : ¬((PWM_MAX : ℚ) * level < 0) := by
      rw [pwm_cast_q]
      nlinarith [not_lt.mp hge]
    have hfl : ⌊(PWM_MAX : ℚ) * level⌋ = ⌊(255 : ℚ) * |level|⌋ := by
      rw [pwm_cast_q, habs]
    simp only [set_motor_frame, pyInt, if_neg hge, if_neg hprod, hfl,
      pwm_cast_z]
    rw [if_neg (by omega : ¬⌊(255 : ℚ) * |level|⌋ > 255)]

lemma pyInt_half : pyInt ((PWM_MAX : ℚ) * (1 / 2)) = 127 := by
  unfold pyInt
  rw [pwm_cast_q, if_neg (by norm_num)]
  norm_num [Int.floor_eq_iff]

lemma round_255_half : round ((255 : ℚ) * 2⁻¹) = 128 := by
  norm_num [round_eq, Int.floor_eq_iff]

/-- Claim C3, counterexample to the rounding behavior: at level 1/2 the
code sends pwm byte `int(255 * 0.5) = 127` while the claimed formula
`clamp(round(abs(level)*255), 0, 255)` gives 128 — Python `int()`
truncates rather than rounds. -/
theorem set_motor_frame_half_diverges :
    set_motor_frame (1 / 2) COMMAND_SET_A_FWD COMMAND_SET_A_REV =
      (COMMAND_SET_A_FWD, 127) ∧
    encode_motor_spec (1 / 2) COMMAND_SET_A_FWD COMMAND_SET_A_REV =
      (COMMAND_SET_A_FWD, 128) := by
  constructor
  · norm_num [set_motor_frame, pyInt_half, pwm_cast_z]
  · unfold encode_motor_spec
    rw [if_neg (by norm_num : ¬(1 / 2 : ℚ) < 0),
      show |(1 / 2 : ℚ)| = 1 / 2 by norm_num,
      show ((1 / 2 : ℚ) * 255) = 255 * 2⁻¹ by ring, round_255_half]
    norm_num

/-- Claim C3 (amended): for every level in [-1, 1] the motor set encode
selects the reverse command code when level < 0 and the forward command
code otherwise (level 0 giving forward), and sends a single magnitude byte
equal to the truncation of `|level| * 255`, which lies in [0, 255]; the
truncation (Python `int()`) replaces the claimed rounding. -/
theorem set_motor_frame_trunc (level : ℚ) (fwd rev : ℕ)
    (h1 : -1 ≤ level) (h2 : level ≤ 1) :
    set_motor_frame level fwd rev =
      ((if level < 0 then rev else fwd), ⌊(255 : ℚ) * |level|⌋) ∧
    0 ≤ ⌊(255 : ℚ) * |level|⌋ ∧ ⌊(255 : ℚ) * |level|⌋ ≤ 255 :=
  set_motor_frame_eq level fwd rev h1 h2

/-- Witness for C3: level -1/2 maps to the reverse command with the
truncated magnitude. -/
theorem set_motor_frame_trunc_witness :
    set_motor_frame (-1 / 2) COMMAND_SET_A_FWD COMMAND_SET_A_REV =
      ((if (-1 / 2 : ℚ) < 0 then COMMAND_SET_A_REV else COMMAND_SET_A_FWD),
        ⌊(255 : ℚ) * |(-1 / 2 : ℚ)|⌋) ∧
    0 ≤ ⌊(255 : ℚ) * |(-1 / 2 : ℚ)|⌋ ∧ ⌊(255 : ℚ) * |(-1 / 2 : ℚ)|⌋ ≤ 255 :=
  set_motor_frame_trunc (-1 / 2) COMMAND_SET_A_FWD COMMAND_SET_A_REV
    (by norm_num) (by norm_num)

/-- Claim C4: a motor get that reads a response whose direction byte is
neither the forward constant 1 nor the reverse constant 2 fails with the
exception immediately — after a single read attempt, with no further
retries; direction 2 yields the negated level `recv[2]/255`, and
direction 1 yields it positive. -/
theorem get_motor_direction_cases (c d v p3 p4 p5 : ℕ) (r2 r3 : List ℕ) :
    get_motor c [c, d, v, p3, p4, p5] r2 r3 =
      (if d = COMMAND_VALUE_REV then Except.ok (-((v : ℚ) / 255))
       else if d = COMMAND_VALUE_FWD then Except.ok ((v : ℚ) / 255)
       else Except.error PyError.thunderBorgError) ∧
    (tbRead c [c, d, v, p3, p4, p5] r2 r3).1 = 1 := by
  constructor
  · simp [get_motor, tbRead, readLoop, get_motor_decode, pwm_cast_q]
  · simp [tbRead, readLoop]

lemma get_motor_decode_rev (c pwmn : ℕ) :
    get_motor_decode [c, COMMAND_VALUE_REV, pwmn, 0, 0, 0] =
      Except.ok (-((pwmn : ℚ) / 255)) := by
  simp [get_motor_decode, COMMAND_VALUE_REV, pwm_cast_q]

lemma get_motor_decode_fwd (c pwmn : ℕ) :
    get_motor_decode [c, COMMAND_VALUE_FWD, pwmn, 0, 0, 0] =
      Except.ok ((pwmn : ℚ) / 255) := by
  simp [get_motor_decode, COMMAND_VALUE_FWD, COMMAND_VALUE_REV, pwm_cast_q]

/-- Claim C5: for every level in [-1, 1], decoding the motor response
built from the command code and magnitude byte that encoding the level
would send yields a value within 1/255 of the level. -/
theorem motor_roundtrip_quantization (level : ℚ)
    (h1 : -1 ≤ level) (h2 : level ≤ 1) :
    ∃ v, motor_roundtrip level = Except.ok v ∧ |v - level| ≤ 1 / 255 := by
  obtain ⟨hframe, hnn, hub⟩ :=
    set_motor_frame_eq level COMMAND_SET_A_FWD COMMAND_SET_A_REV h1 h2
  have happrox := floor_div_255_approx |level|
  have hcast : ((⌊(255 : ℚ) * |level|⌋.toNat : ℕ) : ℚ) =
      (⌊(255 : ℚ) * |level|⌋ : ℚ) := by
    exact_mod_cast Int.toNat_of_nonneg hnn
  by_cases hneg : level < 0
  · refine ⟨-((⌊(255 : ℚ) * |level|⌋ : ℚ) / 255), ?_, ?_⟩
    · simp only [motor_roundtrip, hframe, if_pos hneg, if_true]
      rw [get_motor_decode_rev, hcast]
    · have habs : |level| = -level := abs_of_neg hneg
      rw [abs_le] at happrox ⊢
      constructor <;> linarith [happrox.1, happrox.2]
  · refine ⟨(⌊(255 : ℚ) * |level|⌋ : ℚ) / 255, ?_, ?_⟩
    · simp only [motor_roundtrip, hframe, if_neg hneg]
      rw [show (if COMMAND_SET_A_FWD = COMMAND_SET_A_REV then
            COMMAND_VALUE_REV else COMMAND_VALUE_FWD) = COMMAND_VALUE_FWD
          from if_neg (by decide)]
      rw [get_motor_decode_fwd, hcast]
    · have habs : |level| = level := abs_of_nonneg (not_lt.mp hneg)
      rw [habs] at happrox ⊢
      exact happrox

/-- Witness for C5: the round trip at level 1/2 stays within one PWM
quantization step. -/
theorem motor_roundtrip_quantization_witness :
    ∃ v, motor_roundtrip (1 / 2) = Except.ok v ∧ |v - 1 / 2| ≤ 1 / 255 :=
  motor_roundtrip_quantization (1 / 2) (by norm_num) (by norm_num)

lemma pyInt_zero : pyInt 0 = 0 := by
  unfold pyInt
  rw [if_neg (by norm_num)]
  exact Int.floor_zero

lemma clamp255_zero : clamp255 0 = 0 := by
  unfold clamp255
  rw [pyInt_zero, pwm_cast_z]
  norm_num

lemma pyInt_255 : pyInt 255 = 255 := by
  unfold pyInt
  rw [if_neg (by norm_num)]
  norm_num [Int.floor_eq_iff]

lemma clamp255_255 : clamp255 255 = 255 := by
  unfold clamp255
  rw [pyInt_255, pwm_cast_z]
  norm_num

lemma pyInt_255_half : pyInt ((255 : ℚ) * 2⁻¹) = 127 := by
  unfold pyInt
  rw [if_neg (by norm_num)]
  norm_num [Int.floor_eq_iff]

lemma clamp255_half : clamp255 ((255 : ℚ) * 2⁻¹) = 127 := by
  unfold clamp255
  rw [pyInt_255_half, pwm_cast_z]
  norm_num

/-- Claim C6, counterexample to the rounding behavior: for the single
color (0.5, 0.5, 0.5) the code writes the start frame followed by the word
(255, 127, 127, 127) — `int(255 * 0.5) = 127` — while the claimed word
`(255, round(255*b), round(255*g), round(255*r))` is (255, 128, 128,
128). -/
theorem set_external_led_colors_half_diverges :
    set_external_led_colors [(1 / 2, 1 / 2, 1 / 2)] =
      [[24, 0, 0, 0, 0], [24, 255, 127, 127, 127]] ∧
    led_word_spec (1 / 2) (1 / 2) (1 / 2) = [24, 255, 128, 128, 128] := by
  constructor
  · simp [set_external_led_colors, write_external_led_word, clamp255_zero,
      clamp255_255, clamp255_half, COMMAND_WRITE_EXTERNAL_LED]
  · simp [led_word_spec, round_255_half, COMMAND_WRITE_EXTERNAL_LED]

/-- Claim C6 (amended): `set_external_led_colors` writes the all-zero
start frame first and then exactly one word per color in order, each word
carrying brightness byte 255 and the blue, green, red channels scaled by
255 and truncated (Python `int()`) rather than rounded, then clamped to
[0, 255]. -/
theorem set_external_led_colors_frames (colors : List (ℚ × ℚ × ℚ)) :
    (set_external_led_colors colors).length = colors.length + 1 ∧
    (set_external_led_colors colors)[0]? =
      some [(COMMAND_WRITE_EXTERNAL_LED : ℤ), 0, 0, 0, 0] ∧
    ∀ i : ℕ, (set_external_led_colors colors)[i + 1]? =
      (colors[i]?).map (fun c =>
        [(COMMAND_WRITE_EXTERNAL_LED : ℤ), 255, clamp255 (255 * c.2.2),
         clamp255 (255 * c.2.1), clamp255 (255 * c.1)]) := by
  refine ⟨?_, ?_, ?_⟩
  · simp [set_external_led_colors]
  · simp [set_external_led_colors, write_external_led_word, clamp255_zero]
  · intro i
    simp [set_external_led_colors, write_external_led_word, clamp255_255]

lemma clamp255_bounds (q : ℚ) : 0 ≤ clamp255 q ∧ clamp255 q ≤ 255 := by
  unfold clamp255
  refine ⟨le_max_left 0 _, max_le (by norm_num) ?_⟩
  exact le_trans (min_le_left _ _) pwm_cast_z.le

lemma pyInt_300 : pyInt 300 = 300 := by
  unfold pyInt
  rw [if_neg (by norm_num)]
  norm_num [Int.floor_eq_iff]

lemma clamp255_300 : clamp255 300 = 255 := by
  unfold clamp255
  rw [pyInt_300, pwm_cast_z]
  norm_num

/-- Claim C10: `write_external_led_word` is total over all rational
inputs — each argument is truncated to an integer and clamped into
[0, 255] — so every payload byte of the frame it sends lies in
[0, 255]. -/
theorem write_external_led_word_payload (b0 b1 b2 b3 : ℚ) :
    ∀ v ∈ List.drop 1 (write_external_led_word b0 b1 b2 b3),
      0 ≤ v ∧ v ≤ 255 := by
  intro v hv
  simp only [write_external_led_word, List.drop_succ_cons, List.drop_zero,
    List.mem_cons, List.not_mem_nil, or_false] at hv
  rcases hv with h | h | h | h <;> subst h <;> exact clamp255_bounds _

/-- Witness for C10: the out-of-range argument 300 is clamped to the
payload byte 255, which lies in [0, 255]. -/
theorem write_external_led_word_payload_witness :
    0 ≤ (255 : ℤ) ∧ (255 : ℤ) ≤ 255 :=
  write_external_led_word_payload 300 300 300 300 255 (by
    simp [write_external_led_word, clamp255_300])

end TBorg
